import Mathlib

/-!
Verification development for the px-totp repository's `setup.py`.

The script's whole behaviour is: open `README.md` in read mode inside a
`with` block, read its entire contents into `LONG_DESCRIPTION`, and call
`setuptools.setup` once with a fixed set of literal metadata arguments,
`LONG_DESCRIPTION`, and the result of `setuptools.find_packages()`.

We embed a run of the script as a pure function from the observable
file-system state (the state of `README.md` and the directory tree seen by
`find_packages`) and the process environment to a trace of events together
with an optional propagating error.
-/

/-- Metadata record: the named arguments of the `setuptools.setup` call in
`setup.py` (lines 17-33). -/
structure Metadata where
  name : String
  version : String
  scripts : List String
  author : String
  author_email : String
  description : String
  long_description : String
  long_description_content_type : String
  url : String
  packages : List String
  classifiers : List String
  deriving DecidableEq, Repr

/-- State of `README.md` as seen by `open('README.md', 'r')` / `fh.read()`:
the open call may raise (file absent or unreadable), the read itself may
raise, or the read succeeds and yields the file's entire text. -/
inductive ReadmeState where
  | openFails
  | readFails
  | present (content : String)
  deriving DecidableEq, Repr

/-- One entry of the working-directory tree, as relevant to
`setuptools.find_packages`: its name, whether it is a directory, and whether
it contains an `__init__.py` marker. -/
structure TreeEntry where
  name : String
  isDir : Bool
  hasInit : Bool
  deriving DecidableEq, Repr

/-- Observable file-system state of a run: the state of `README.md` and the
working-directory tree. -/
structure FileSystem where
  readme : ReadmeState
  tree : List TreeEntry
  deriving DecidableEq, Repr

/-- Modelled from the spec: `setuptools.find_packages()` is external library
code not included in the repository; the spec describes its result as the
"list of sub-packages" of the working directory.  It returns the names of
the directories of the tree that are Python packages (directories holding an
`__init__.py`). -/
def find_packages (tree : List TreeEntry) : List String :=
  (tree.filter fun e => e.isDir && e.hasInit).map fun e => e.name

/-- The directory tree of this repository: its only entries are the files
`setup.py` and the `px-totp` script, neither of which is a directory. -/
def repoTree : List TreeEntry :=
  [⟨"setup.py", false, false⟩, ⟨"px-totp", false, false⟩]

/-- Events observable during a run of the script. -/
inductive Event where
  | openFile (path mode : String)
  | readFile (path : String)
  | closeFile (path : String)
  | setupCall (md : Metadata)
  deriving DecidableEq, Repr

/-- Errors that terminate the script: a failing open of `README.md`, or a
failing read of it.  Both propagate unrecovered. -/
inductive ScriptErr where
  | readmeOpenFailed
  | readmeReadFailed
  deriving DecidableEq, Repr

/-- The metadata record built by `setup.py`: every field except
`long_description` (the text read from `README.md`) and `packages` (the
result of `setuptools.find_packages()`) is a literal constant. -/
def setupMetadata (longDesc : String) (pkgs : List String) : Metadata :=
  { name := "px-totp"
    version := "0.0.1"
    scripts := ["px-totp"]
    author := "P. H."
    author_email := "px-totp.perfide@safersignup.de"
    description := "Time-based One-Time Password Generator"
    long_description := longDesc
    long_description_content_type := "text/markdown"
    url := "https://github.com/perfide/px-totp"
    packages := pkgs
    classifiers :=
      ["Programming Language :: Python :: 3",
       "License :: OSI Approved :: BSD License",
       "Operating System :: OS Independent"] }

/-- A run of `setup.py`: the trace of events it produces and the error, if
any, that terminates it.  The `with` statement guarantees the close of the
file handle both on a successful read and when the read raises; on a
successful read the script then calls `setuptools.setup` once.  The process
environment `env` is an input of every run but the script never consults
it. -/
def runScript (env : List (String × String)) (fs : FileSystem) :
    List Event × Option ScriptErr :=
  match fs.readme with
  | ReadmeState.openFails =>
      ([Event.openFile "README.md" "r"], some ScriptErr.readmeOpenFailed)
  | ReadmeState.readFails =>
      ([Event.openFile "README.md" "r", Event.readFile "README.md",
        Event.closeFile "README.md"], some ScriptErr.readmeReadFailed)
  | ReadmeState.present c =>
      ([Event.openFile "README.md" "r", Event.readFile "README.md",
        Event.closeFile "README.md",
        Event.setupCall (setupMetadata c (find_packages fs.tree))], none)

/-- The metadata records passed to `setuptools.setup` during a trace. -/
def setupCalls (events : List Event) : List Metadata :=
  events.filterMap fun e =>
    match e with
    | Event.setupCall md => some md
    | _ => none

/-- Whether the read of `README.md` succeeds in the given state. -/
def readSucceeds : ReadmeState → Bool
  | ReadmeState.present _ => true
  | _ => false

/-- Checks that no `setuptools.setup` call occurs in the trace before the
file handle has been closed: scanning the trace, the first of a close or a
setup call to occur is the close. -/
def closedBeforeSetup : List Event → Bool
  | [] => true
  | Event.setupCall _ :: _ => false
  | Event.closeFile _ :: _ => true
  | _ :: rest => closedBeforeSetup rest

/-- C1: in every run in which reading `README.md` succeeds, the script calls
`setuptools.setup` with a metadata record whose literal fields are exactly
the constants of the source: name, version, scripts, author, author email,
description, content type, url, and the three classifiers in order. -/
theorem setup_literal_fields (env : List (String × String)) (fs : FileSystem)
    (c : String) (h : fs.readme = ReadmeState.present c) :
    ∃ md : Metadata, setupCalls (runScript env fs).1 = [md] ∧
      md.name = "px-totp" ∧
      md.version = "0.0.1" ∧
      md.scripts = ["px-totp"] ∧
      md.author = "P. H." ∧
      md.author_email = "px-totp.perfide@safersignup.de" ∧
      md.description = "Time-based One-Time Password Generator" ∧
      md.long_description_content_type = "text/markdown" ∧
      md.url = "https://github.com/perfide/px-totp" ∧
      md.classifiers =
        ["Programming Language :: Python :: 3",
         "License :: OSI Approved :: BSD License",
         "Operating System :: OS Independent"] := by
  refine ⟨setupMetadata c (find_packages fs.tree), ?_, rfl, rfl, rfl, rfl,
    rfl, rfl, rfl, rfl, rfl⟩
  simp [runScript, h, setupCalls]

/-- Witness for C1: a run over this repository's tree with `README.md`
holding the single character `x`. -/
theorem setup_literal_fields_witness :
    ∃ md : Metadata,
      setupCalls (runScript [] ⟨ReadmeState.present "x", repoTree⟩).1 = [md] ∧
      md.name = "px-totp" ∧
      md.version = "0.0.1" ∧
      md.scripts = ["px-totp"] ∧
      md.author = "P. H." ∧
      md.author_email = "px-totp.perfide@safersignup.de" ∧
      md.description = "Time-based One-Time Password Generator" ∧
      md.long_description_content_type = "text/markdown" ∧
      md.url = "https://github.com/perfide/px-totp" ∧
      md.classifiers =
        ["Programming Language :: Python :: 3",
         "License :: OSI Approved :: BSD License",
         "Operating System :: OS Independent"] :=
  setup_literal_fields [] ⟨ReadmeState.present "x", repoTree⟩ "x" rfl

/-- C2: in every run in which `README.md` is absent or unreadable (the open
raises) or its read raises, the script terminates with a propagating error
and never calls `setuptools.setup`, so it cannot silently substitute empty
content for the long description. -/
theorem read_failure_propagates (env : List (String × String))
    (fs : FileSystem)
    (h : fs.readme = ReadmeState.openFails ∨
         fs.readme = ReadmeState.readFails) :
    (runScript env fs).2.isSome = true ∧
      setupCalls (runScript env fs).1 = [] := by
  rcases h with h | h <;> simp [runScript, h, setupCalls]

/-- Witness for C2: a run with `README.md` absent. -/
theorem read_failure_propagates_witness :
    (runScript [] ⟨ReadmeState.openFails, repoTree⟩).2.isSome = true ∧
      setupCalls (runScript [] ⟨ReadmeState.openFails, repoTree⟩).1 = [] :=
  read_failure_propagates [] ⟨ReadmeState.openFails, repoTree⟩ (Or.inl rfl)

/-- C3: the script fails exactly when the open or read of `README.md`
fails: the run carries an error if and only if the read did not succeed, so
a successful read means the script runs to completion without raising. -/
theorem error_iff_read_fails (env : List (String × String))
    (fs : FileSystem) :
    (runScript env fs).2.isSome = true ↔ readSucceeds fs.readme = false := by
  obtain ⟨r, t⟩ := fs
  cases r <;> simp [runScript, readSucceeds]

/-- C4: in every run in which the read succeeds, the `long_description`
argument of the single `setuptools.setup` call is exactly the text read
from `README.md`, unmodified. -/
theorem long_description_is_readme (env : List (String × String))
    (fs : FileSystem) (c : String)
    (h : fs.readme = ReadmeState.present c) :
    setupCalls (runScript env fs).1 =
        [setupMetadata c (find_packages fs.tree)] ∧
      (setupMetadata c (find_packages fs.tree)).long_description = c := by
  constructor
  · simp [runScript, h, setupCalls]
  · rfl

/-- Witness for C4: a run with a two-line markdown text in `README.md`. -/
theorem long_description_is_readme_witness :
    setupCalls
        (runScript [] ⟨ReadmeState.present "# px-totp\ntotp tool\n",
          repoTree⟩).1 =
      [setupMetadata "# px-totp\ntotp tool\n" (find_packages repoTree)] ∧
      (setupMetadata "# px-totp\ntotp tool\n"
        (find_packages repoTree)).long_description =
        "# px-totp\ntotp tool\n" :=
  long_description_is_readme [] ⟨ReadmeState.present "# px-totp\ntotp tool\n",
    repoTree⟩ "# px-totp\ntotp tool\n" rfl

/-- C5: in every run `setuptools.setup` is called at most once, and in every
successful run (no propagating error) it is called exactly once. -/
theorem setup_called_once (env : List (String × String)) (fs : FileSystem) :
    (setupCalls (runScript env fs).1).length ≤ 1 ∧
      ((runScript env fs).2 = none →
        (setupCalls (runScript env fs).1).length = 1) := by
  obtain ⟨r, t⟩ := fs
  cases r <;> simp [runScript, setupCalls]

/-- Witness for C5: a successful run over this repository's tree. -/
theorem setup_called_once_witness :
    (setupCalls (runScript [] ⟨ReadmeState.present "x", repoTree⟩).1).length
        ≤ 1 ∧
      (setupCalls
        (runScript [] ⟨ReadmeState.present "x", repoTree⟩).1).length = 1 :=
  ⟨(setup_called_once [] ⟨ReadmeState.present "x", repoTree⟩).1,
   (setup_called_once [] ⟨ReadmeState.present "x", repoTree⟩).2 rfl⟩

/-- C6: the script consumes no environment variables and keeps no persisted
runtime state: a run is a pure function of the file-system state alone, so
two runs under arbitrary environments but identical file-system state
produce the same trace (hence pass identical arguments to
`setuptools.setup`) and the same outcome.  The event alphabet of the model
contains only file and setup-call events, so no run opens a network port. -/
theorem run_ignores_environment (env₁ env₂ : List (String × String))
    (fs : FileSystem) :
    runScript env₁ fs = runScript env₂ fs := by
  obtain ⟨r, t⟩ := fs
  cases r <;> rfl

/-- C7: every metadata record passed to `setuptools.setup` in any run has
non-empty name, version, author, author email, description, content type
and url, a non-empty scripts list, a non-empty classifier list all of whose
members are non-empty, and a non-empty long description whenever the text
read from `README.md` is non-empty. -/
theorem metadata_fields_nonempty (env : List (String × String))
    (fs : FileSystem) (md : Metadata)
    (h : md ∈ setupCalls (runScript env fs).1) :
    md.name ≠ "" ∧ md.version ≠ "" ∧ md.author ≠ "" ∧
      md.author_email ≠ "" ∧ md.description ≠ "" ∧
      md.long_description_content_type ≠ "" ∧ md.url ≠ "" ∧
      md.scripts ≠ [] ∧ md.classifiers ≠ [] ∧
      (∀ s ∈ md.classifiers, s ≠ "") ∧
      (∀ c, fs.readme = ReadmeState.present c → c ≠ "" →
        md.long_description ≠ "") := by
  obtain ⟨r, t⟩ := fs
  cases r with
  | openFails => simp [runScript, setupCalls] at h
  | readFails => simp [runScript, setupCalls] at h
  | present c =>
      simp only [runScript, setupCalls] at h
      simp only [List.filterMap_cons, List.filterMap_nil,
        List.mem_singleton] at h
      subst h
      simp only [setupMetadata]
      refine ⟨by decide, by decide, by decide, by decide, by decide,
        by decide, by decide, by decide, by decide, by decide, ?_⟩
      intro c' hc' hne
      simp only [ReadmeState.present.injEq] at hc'
      subst hc'
      exact hne

/-- Witness for C7: the record of a successful run over this repository's
tree with a non-empty `README.md`. -/
theorem metadata_fields_nonempty_witness :
    (setupMetadata "x" (find_packages repoTree)).name ≠ "" ∧
      (setupMetadata "x" (find_packages repoTree)).version ≠ "" ∧
      (setupMetadata "x" (find_packages repoTree)).author ≠ "" ∧
      (setupMetadata "x" (find_packages repoTree)).author_email ≠ "" ∧
      (setupMetadata "x" (find_packages repoTree)).description ≠ "" ∧
      (setupMetadata "x"
        (find_packages repoTree)).long_description_content_type ≠ "" ∧
      (setupMetadata "x" (find_packages repoTree)).url ≠ "" ∧
      (setupMetadata "x" (find_packages repoTree)).scripts ≠ [] ∧
      (setupMetadata "x" (find_packages repoTree)).classifiers ≠ [] ∧
      (∀ s ∈ (setupMetadata "x" (find_packages repoTree)).classifiers,
        s ≠ "") ∧
      (setupMetadata "x" (find_packages repoTree)).long_description ≠ "" := by
  have h := metadata_fields_nonempty []
    ⟨ReadmeState.present "x", repoTree⟩
    (setupMetadata "x" (find_packages repoTree))
    (by simp [runScript, setupCalls])
  exact ⟨h.1, h.2.1, h.2.2.1, h.2.2.2.1, h.2.2.2.2.1, h.2.2.2.2.2.1,
    h.2.2.2.2.2.2.1, h.2.2.2.2.2.2.2.1, h.2.2.2.2.2.2.2.2.1,
    h.2.2.2.2.2.2.2.2.2.1,
    h.2.2.2.2.2.2.2.2.2.2 "x" rfl (by decide)⟩

/-- C8: the file handle is released before the configuration call in every
run: no `setuptools.setup` call ever precedes the close of `README.md` in
the trace, and in the run where the read itself raises the handle is still
closed. -/
theorem handle_closed_before_setup (env : List (String × String))
    (fs : FileSystem) :
    closedBeforeSetup (runScript env fs).1 = true ∧
      (fs.readme = ReadmeState.readFails →
        Event.closeFile "README.md" ∈ (runScript env fs).1) := by
  obtain ⟨r, t⟩ := fs
  cases r <;> simp [runScript, closedBeforeSetup]

/-- Witness for C8: the run in which the read of `README.md` raises. -/
theorem handle_closed_before_setup_witness :
    closedBeforeSetup
        (runScript [] ⟨ReadmeState.readFails, repoTree⟩).1 = true ∧
      Event.closeFile "README.md" ∈
        (runScript [] ⟨ReadmeState.readFails, repoTree⟩).1 :=
  ⟨(handle_closed_before_setup [] ⟨ReadmeState.readFails, repoTree⟩).1,
   (handle_closed_before_setup [] ⟨ReadmeState.readFails, repoTree⟩).2 rfl⟩

/-- C9: if the open or the read of `README.md` raises, `setuptools.setup`
is never invoked: the trace of such a run contains no setup call at all. -/
theorem no_setup_on_failure (env : List (String × String))
    (fs : FileSystem) (h : readSucceeds fs.readme = false) :
    setupCalls (runScript env fs).1 = [] := by
  obtain ⟨r, t⟩ := fs
  cases r with
  | openFails => simp [runScript, setupCalls]
  | readFails => simp [runScript, setupCalls]
  | present c => simp [readSucceeds] at h

/-- Witness for C9: the run in which the read of `README.md` raises. -/
theorem no_setup_on_failure_witness :
    setupCalls (runScript [] ⟨ReadmeState.readFails, repoTree⟩).1 = [] :=
  no_setup_on_failure [] ⟨ReadmeState.readFails, repoTree⟩ rfl

/-- C10: the `packages` argument is not a literal: in every successful run
it is the result of `find_packages` over the working-directory tree, that
result varies with the tree, and over this repository's tree (whose only
entries are the files `setup.py` and `px-totp`) it is the empty list. -/
theorem packages_from_find_packages :
    (∀ (env : List (String × String)) (c : String) (tree : List TreeEntry),
      setupCalls (runScript env ⟨ReadmeState.present c, tree⟩).1 =
        [setupMetadata c (find_packages tree)]) ∧
      find_packages repoTree = [] ∧
      ∃ t₁ t₂ : List TreeEntry, find_packages t₁ ≠ find_packages t₂ := by
  refine ⟨fun env c tree => by simp [runScript, setupCalls], rfl,
    [], [⟨"pkg", true, true⟩], by decide⟩
